import Mathlib

/-!
# HTTP handlers of the Gemini / OpenAI proxy (`api/handler.go`)

A shallow embedding of the handlers of package `api`.  A handler is a function
from the inbound request (`Context`) and the behaviour of its collaborators
(`ChatWorld`, `EmbeddingWorld`: the results of the library and adapter calls it
makes) to the finite trace of effects it performs, in program order.
-/

set_option autoImplicit false

namespace api

/-! ## Data model -/

/-- A Go `error` value; `err.Error()` is its text. -/
structure GoError where
  Error : String
deriving DecidableEq, Repr

/-- The outcome of a Go call returning `(value, error)`. -/
inductive Result (α : Type) where
  | ok (value : α)
  | error (err : GoError)
deriving DecidableEq, Repr

/-- `http.StatusOK`. -/
def StatusOK : Nat := 200

/-- `http.StatusBadRequest`. -/
def StatusBadRequest : Nat := 400

/-- The type `http.Header` (`map[string][]string`), as an association list read
through `Header.Values`. -/
abbrev Header := List (String × List String)

/-- The values stored under `key`, if the key is present. -/
def Header.Values (h : Header) (key : String) : Option (List String) :=
  match h with
  | [] => none
  | (k, vs) :: rest => if k = key then some vs else Header.Values rest key

/-- `Header.Get`: the first value under `key`, or the empty string. -/
def Header.Get (h : Header) (key : String) : String :=
  match Header.Values h key with
  | some (v :: _) => v
  | _ => ""

/-- `Header.Set`: the entry of `key` is replaced by the single value `value`.
All keys written by this package are already in canonical MIME form. -/
def Header.Set (h : Header) (key value : String) : Header :=
  (key, [value]) :: h.filter (fun kv => decide (kv.1 ≠ key))

/-- The struct `openai.Model`, with the fields the handlers fill in. -/
structure Model where
  CreatedAt : Int
  ID : String
  Object : String
  OwnedBy : String
deriving DecidableEq, Repr

/-- The struct `openai.APIError`, with the fields the handlers fill in. -/
structure APIError where
  Code : Nat
  Message : String
deriving DecidableEq, Repr

/-- The model identifiers exported by package `adapter`; their values are
declared outside this package and are taken as parameters. -/
structure ModelNames where
  Gemini1Pro : String
  Gemini1Dot5Flash : String
  Gemini1Dot5Pro : String
  TextEmbedding004 : String
deriving DecidableEq, Repr

/-- The struct `adapter.ChatCompletionRequest`: the two fields the handler
reads, and the remaining JSON of the request. -/
structure ChatCompletionRequest where
  Model : String
  Stream : Bool
  rest : String
deriving DecidableEq, Repr

/-- The struct `adapter.EmbeddingRequest`, as decoded JSON. -/
structure EmbeddingRequest where
  rest : String
deriving DecidableEq, Repr

/-- The upstream request content (`[]*genai.Content`). -/
structure Messages where
  contents : List String
deriving DecidableEq, Repr

/-- The value `*openai.ChatCompletionResponse` built by the adapter. -/
structure ChatCompletionResponse where
  json : String
deriving DecidableEq, Repr

/-- The value `*openai.EmbeddingResponse` built by the adapter. -/
structure EmbeddingResponse where
  json : String
deriving DecidableEq, Repr

/-- The handle `*genai.Client`. -/
structure Client where
  handle : Nat
deriving DecidableEq, Repr

/-- The value built by `adapter.NewGeminiAdapter(client, model)`. -/
structure GeminiAdapter where
  client : Client
  model : String
deriving DecidableEq, Repr

/-- `adapter.NewGeminiAdapter`. -/
def NewGeminiAdapter (client : Client) (model : String) : GeminiAdapter :=
  { client := client, model := model }

/-- The receive-only channel `<-chan string` returned by
`GenerateStreamContent`, as its finite history: the payloads it delivers in
order, after which it is closed.  `endedByError` is a ghost field recording why
the producer closed it (upstream error rather than clean completion); a receive
cannot observe it. -/
structure DataChan where
  payloads : List String
  endedByError : Bool
deriving DecidableEq, Repr

/-- One receive `data, ok := <-dataChan`: the next payload and the remaining
channel, or `none` once the channel is closed and drained. -/
def DataChan.recv (ch : DataChan) : Option String × DataChan :=
  match ch.payloads with
  | [] => (none, ch)
  | d :: ds => (some d, { ch with payloads := ds })

/-- A value of a `gin.H` map. -/
inductive HValue where
  | str (s : String)
  | list (items : List Model)
deriving DecidableEq, Repr

/-- The bodies handed to `c.JSON`. -/
inductive Body where
  | H (fields : List (String × HValue))
  | Model (m : Model)
  | APIError (e : APIError)
  | ChatCompletionResponse (r : ChatCompletionResponse)
  | EmbeddingResponse (r : EmbeddingResponse)
deriving DecidableEq, Repr

/-- The value under `key` of a `gin.H` body. -/
def Body.field (b : Body) (key : String) : Option HValue :=
  match b with
  | Body.H fields => (fields.find? (fun kv => decide (kv.1 = key))).map Prod.snd
  | _ => none

/-- The effects a handler performs, each call recorded with its arguments and,
where the handler branches on it, its result. -/
inductive Event where
  | JSON (status : Nat) (body : Body)
  | Render (code : Int) (data : String)
  | Recv (res : Option String)
  | SetHeader (key value : String)
  | NewClient (apiKey : String) (res : Result Client)
  | Close (client : Client)
  | GenerateContent (g : GeminiAdapter) (req : ChatCompletionRequest) (messages : Messages)
      (res : Result ChatCompletionResponse)
  | GenerateStreamContent (g : GeminiAdapter) (req : ChatCompletionRequest) (messages : Messages)
      (res : Result DataChan)
  | GenerateEmbedding (g : GeminiAdapter) (messages : Messages) (res : Result EmbeddingResponse)
  | Log (msg : String)
deriving DecidableEq, Repr

/-- The inbound request as the handlers read it from `*gin.Context`:
request headers, path parameters and body, and the client-gone notification of
the connection (`clientGone i` tells whether `c.Writer.CloseNotify()` is ready
at the `i`-th poll of `c.Stream`). -/
structure Context where
  header : Header
  params : List (String × String)
  body : String
  clientGone : Nat → Bool

/-- `c.GetHeader(key)`. -/
def Context.GetHeader (c : Context) (key : String) : String :=
  Header.Get c.header key

/-- `c.Param(key)`: the value of the path parameter, or the empty string. -/
def Context.Param (c : Context) (key : String) : String :=
  match c.params.find? (fun kv => decide (kv.1 = key)) with
  | some kv => kv.2
  | none => ""

/-! ## Index and model handlers -/

/-- `http.StatusMisdirectedRequest`. -/
def StatusMisdirectedRequest : Nat := 421

/-- `IndexHandler`. -/
def IndexHandler (_c : Context) : List Event :=
  [Event.JSON StatusMisdirectedRequest (Body.H
    [("message", HValue.str ("Welcome to the OpenAI API! Documentation is available at " ++
      "https://platform.openai.com/docs/api-reference"))])]


/-- `ModelListHandler`. -/
def ModelListHandler (k : ModelNames) (_c : Context) : List Event :=
  [Event.JSON StatusOK (Body.H
    [("object", HValue.str "list"),
     ("data", HValue.list
       [{ CreatedAt := 1686935002, ID := k.Gemini1Pro, Object := "model", OwnedBy := "google" },
        { CreatedAt := 1686935002, ID := k.Gemini1Dot5Flash, Object := "model", OwnedBy := "google" },
        { CreatedAt := 1686935002, ID := k.Gemini1Dot5Pro, Object := "model", OwnedBy := "google" },
        { CreatedAt := 1686935002, ID := k.TextEmbedding004, Object := "model", OwnedBy := "openai" }])])]

/-- `ModelRetrieveHandler`. -/
def ModelRetrieveHandler (c : Context) : List Event :=
  let model := c.Param "model"
  [Event.JSON StatusOK (Body.Model
    { CreatedAt := 1686935002, ID := model, Object := "model", OwnedBy := "google" })]

/-- `setEventStreamHeaders`: the five writes to `c.Writer.Header()`. -/
def setEventStreamHeaders : List Event :=
  [Event.SetHeader "Content-Type" "text/event-stream",
   Event.SetHeader "Cache-Control" "no-cache",
   Event.SetHeader "Connection" "keep-alive",
   Event.SetHeader "Transfer-Encoding" "chunked",
   Event.SetHeader "X-Accel-Buffering" "no"]

/-- The effect of one event on the response header map. -/
def Event.applyHeader (h : Header) (e : Event) : Header :=
  match e with
  | Event.SetHeader key value => Header.Set h key value
  | _ => h

/-- The response header map after the header writes of a trace, from `h`. -/
def headerAfter (h : Header) (trace : List Event) : Header :=
  trace.foldl Event.applyHeader h

/-! ## Chat completion handler -/

/-- The collaborators of `ChatProxyHandler`: the result of each library or
adapter call it makes, as a function of the arguments it passes. -/
structure ChatWorld where
  /-- The call `fmt.Sscanf(header, "Bearer %s", &openaiAPIKey)`: the token, or the error. -/
  Sscanf : String → Result String
  /-- The call `c.ShouldBindJSON(req)` on the request body. -/
  ShouldBindJSON : String → Result ChatCompletionRequest
  /-- The call `req.ToGenaiMessages()`. -/
  ToGenaiMessages : ChatCompletionRequest → Result Messages
  /-- The call `genai.NewClient(ctx, option.WithAPIKey(key))`. -/
  NewClient : String → Result Client
  /-- The call `gemini.GenerateContent(ctx, req, messages)`. -/
  GenerateContent : GeminiAdapter → ChatCompletionRequest → Messages → Result ChatCompletionResponse
  /-- The call `gemini.GenerateStreamContent(ctx, req, messages)`. -/
  GenerateStreamContent : GeminiAdapter → ChatCompletionRequest → Messages → Result DataChan

/-- The error response written on every failing exit:
`c.JSON(http.StatusBadRequest, openai.APIError{Code: http.StatusBadRequest, Message: err.Error()})`. -/
def badRequest (err : GoError) : Event :=
  Event.JSON StatusBadRequest (Body.APIError { Code := StatusBadRequest, Message := err.Error })

/-- The callback handed to `c.Stream` in `ChatProxyHandler`: one receive from
`dataChan` (recorded with what it returned), one rendered event, and whether
the stream stays open. -/
def streamStep (dataChan : DataChan) : List Event × Bool × DataChan :=
  match dataChan.recv with
  | (some data, rest) =>
    ([Event.Recv (some data), Event.Render (-1) ("data: " ++ data)], true, rest)
  | (none, rest) =>
    ([Event.Recv none, Event.Render (-1) "data: [DONE]"], false, rest)

/-- `c.Stream(step)` of gin: a loop that, at each turn, returns if the
client-gone notification is ready, and otherwise calls `step` and returns once
`step` answers `false`.  `fuel` bounds the number of turns, `i` counts them. -/
def Context.Stream {σ : Type} (c : Context) (step : σ → List Event × Bool × σ) :
    Nat → Nat → σ → List Event
  | 0, _, _ => []
  | fuel + 1, i, s =>
    if c.clientGone i then []
    else
      match step s with
      | (out, keepOpen, s1) =>
        out ++ (if keepOpen then Context.Stream c step fuel (i + 1) s1 else [])

/-- `ChatProxyHandler`.  The deferred `client.Close()` runs when the handler
returns, after everything that follows the creation of the client.  The stream
loop is run with one turn per payload of the channel plus one for its closure
(`Stream_fuel` shows that more turns change nothing). -/
def ChatProxyHandler (w : ChatWorld) (c : Context) : List Event :=
  let authorizationHeader := c.GetHeader "Authorization"
  match w.Sscanf authorizationHeader with
  | Result.error err => [badRequest err]
  | Result.ok openaiAPIKey =>
    match w.ShouldBindJSON c.body with
    | Result.error err => [badRequest err]
    | Result.ok req =>
      match w.ToGenaiMessages req with
      | Result.error err => [badRequest err]
      | Result.ok messages =>
        match w.NewClient openaiAPIKey with
        | Result.error err =>
          [Event.NewClient openaiAPIKey (Result.error err),
           Event.Log ("new genai client error " ++ err.Error ++ "\n"),
           badRequest err]
        | Result.ok client =>
          let model := req.Model
          let gemini := NewGeminiAdapter client model
          Event.NewClient openaiAPIKey (Result.ok client) ::
          (if !req.Stream then
            match w.GenerateContent gemini req messages with
            | Result.error err =>
              [Event.GenerateContent gemini req messages (Result.error err),
               Event.Log ("genai generate content error " ++ err.Error ++ "\n"),
               badRequest err]
            | Result.ok resp =>
              [Event.GenerateContent gemini req messages (Result.ok resp),
               Event.JSON StatusOK (Body.ChatCompletionResponse resp)]
          else
            match w.GenerateStreamContent gemini req messages with
            | Result.error err =>
              [Event.GenerateStreamContent gemini req messages (Result.error err),
               Event.Log ("genai generate content error " ++ err.Error ++ "\n"),
               badRequest err]
            | Result.ok dataChan =>
              Event.GenerateStreamContent gemini req messages (Result.ok dataChan) ::
              (setEventStreamHeaders ++
               c.Stream streamStep (dataChan.payloads.length + 1) 0 dataChan))
          ++ [Event.Close client]

/-! ## Embedding handler -/

/-- The collaborators of `EmbeddingProxyHandler`. -/
structure EmbeddingWorld where
  /-- The call `fmt.Sscanf(header, "Bearer %s", &openaiAPIKey)`: the token, or the error. -/
  Sscanf : String → Result String
  /-- The call `c.ShouldBindJSON(req)` on the request body. -/
  ShouldBindJSON : String → Result EmbeddingRequest
  /-- The call `req.ToGenaiMessages()`. -/
  ToGenaiMessages : EmbeddingRequest → Result Messages
  /-- The call `req.ToGenaiModel()`. -/
  ToGenaiModel : EmbeddingRequest → String
  /-- The call `genai.NewClient(ctx, option.WithAPIKey(key))`. -/
  NewClient : String → Result Client
  /-- The call `gemini.GenerateEmbedding(ctx, messages)`. -/
  GenerateEmbedding : GeminiAdapter → Messages → Result EmbeddingResponse

/-- `EmbeddingProxyHandler`. -/
def EmbeddingProxyHandler (w : EmbeddingWorld) (c : Context) : List Event :=
  let authorizationHeader := c.GetHeader "Authorization"
  match w.Sscanf authorizationHeader with
  | Result.error err => [badRequest err]
  | Result.ok openaiAPIKey =>
    match w.ShouldBindJSON c.body with
    | Result.error err => [badRequest err]
    | Result.ok req =>
      match w.ToGenaiMessages req with
      | Result.error err => [badRequest err]
      | Result.ok messages =>
        match w.NewClient openaiAPIKey with
        | Result.error err =>
          [Event.NewClient openaiAPIKey (Result.error err),
           Event.Log ("new genai client error " ++ err.Error ++ "\n"),
           badRequest err]
        | Result.ok client =>
          let model := w.ToGenaiModel req
          let gemini := NewGeminiAdapter client model
          Event.NewClient openaiAPIKey (Result.ok client) ::
          (match w.GenerateEmbedding gemini messages with
            | Result.error err =>
              [Event.GenerateEmbedding gemini messages (Result.error err),
               Event.Log ("genai generate content error " ++ err.Error ++ "\n"),
               badRequest err]
            | Result.ok resp =>
              [Event.GenerateEmbedding gemini messages (Result.ok resp),
               Event.JSON StatusOK (Body.EmbeddingResponse resp)])
          ++ [Event.Close client]

/-! ## Observations on traces -/

/-- The events rendered with `c.Render`, in order. -/
def rendered (trace : List Event) : List String :=
  trace.filterMap (fun e => match e with
    | Event.Render _ data => some data
    | _ => none)

/-- What the receives on the data channel returned, in order: `some d` for a
delivered payload `d`, `none` for the observation that the channel is closed. -/
def received (trace : List Event) : List (Option String) :=
  trace.filterMap (fun e => match e with
    | Event.Recv res => some res
    | _ => none)

/-- The responses written with `c.JSON`, in order. -/
def responses (trace : List Event) : List (Nat × Body) :=
  trace.filterMap (fun e => match e with
    | Event.JSON status body => some (status, body)
    | _ => none)

/-- An attempt to create the upstream client. -/
def Event.isNewClient : Event → Bool
  | Event.NewClient _ _ => true
  | _ => false

/-- A `client.Close()`. -/
def Event.isClose : Event → Bool
  | Event.Close _ => true
  | _ => false

/-- A call of one of the three upstream operations of the adapter. -/
def Event.isUpstreamCall : Event → Bool
  | Event.GenerateContent _ _ _ _ => true
  | Event.GenerateStreamContent _ _ _ _ => true
  | Event.GenerateEmbedding _ _ _ => true
  | _ => false

/-- An event that involves the upstream client: its creation, a call made
through it, its release. -/
def Event.isClientRelated (e : Event) : Bool :=
  e.isNewClient || e.isUpstreamCall || e.isClose

/-- A write to the response header map. -/
def Event.isSetHeader : Event → Bool
  | Event.SetHeader _ _ => true
  | _ => false

/-- An event rendered with `c.Render`. -/
def Event.isRender : Event → Bool
  | Event.Render _ _ => true
  | _ => false

/-- The models listed in the body of a `ModelListHandler` response. -/
def listedModels (trace : List Event) : List Model :=
  match trace with
  | [Event.JSON _ body] =>
    match body.field "data" with
    | some (HValue.list ms) => ms
    | _ => []
  | _ => []

/-- The model in the body of a `ModelRetrieveHandler` response. -/
def retrievedModel (trace : List Event) : Option Model :=
  match trace with
  | [Event.JSON _ (Body.Model m)] => some m
  | _ => none

/-- The events of the stream loop of `ChatProxyHandler` over the payloads still
to be delivered, turn by turn: the closed form of `Context.Stream` applied to
`streamStep` (see `Stream_fuel`). -/
def streamTrace (gone : Nat → Bool) : Nat → List String → List Event
  | i, [] => if gone i then [] else [Event.Recv none, Event.Render (-1) "data: [DONE]"]
  | i, d :: ds =>
    if gone i then []
    else Event.Recv (some d) :: Event.Render (-1) ("data: " ++ d) :: streamTrace gone (i + 1) ds

/-- The event rendered for the outcome of one receive on the data channel. -/
def sseFrame : Option String → String
  | some data => "data: " ++ data
  | none => "data: [DONE]"

/-- Input that `ChatProxyHandler` turns down: the `Authorization` header does
not parse as `Bearer <token>`, or the body does not bind, or the bound request
does not translate to upstream messages. -/
def ChatWorld.invalidInput (w : ChatWorld) (c : Context) : Prop :=
  (∃ err, w.Sscanf (c.GetHeader "Authorization") = Result.error err) ∨
  (∃ err, w.ShouldBindJSON c.body = Result.error err) ∨
  (∃ req err, w.ShouldBindJSON c.body = Result.ok req ∧ w.ToGenaiMessages req = Result.error err)

/-- Input that `EmbeddingProxyHandler` turns down. -/
def EmbeddingWorld.invalidInput (w : EmbeddingWorld) (c : Context) : Prop :=
  (∃ err, w.Sscanf (c.GetHeader "Authorization") = Result.error err) ∨
  (∃ err, w.ShouldBindJSON c.body = Result.error err) ∨
  (∃ req err, w.ShouldBindJSON c.body = Result.ok req ∧ w.ToGenaiMessages req = Result.error err)

/-- The response of an error exit caused by `err`: status 400 with an
`APIError` of code 400 and message `err.Error()`. -/
def errorResponse (err : GoError) : Nat × Body :=
  (400, Body.APIError { Code := 400, Message := err.Error })

/-! ## Concrete runs -/

/-- A request carrying a bearer credential; the client never disconnects. -/
def sampleContext : Context :=
  { header := [("Authorization", ["Bearer k"])], params := [], body := "{}",
    clientGone := fun _ => false }

/-- A chat world in which every call succeeds, the request is streamed, and the
data channel delivers `payloads` and is then closed, `endedByError` telling
whether the upstream sequence failed. -/
def streamWorld (payloads : List String) (endedByError : Bool) : ChatWorld :=
  { Sscanf := fun _ => Result.ok "k",
    ShouldBindJSON := fun _ => Result.ok { Model := "gemini-pro", Stream := true, rest := "" },
    ToGenaiMessages := fun _ => Result.ok { contents := ["hi"] },
    NewClient := fun _ => Result.ok { handle := 1 },
    GenerateContent := fun _ _ _ => Result.ok { json := "" },
    GenerateStreamContent := fun _ _ _ =>
      Result.ok { payloads := payloads, endedByError := endedByError } }

/-- A chat world whose request carries an unsupported content part: binding
succeeds and `ToGenaiMessages` fails. -/
def unsupportedWorld : ChatWorld :=
  { streamWorld [] false with
    ToGenaiMessages := fun _ => Result.error { Error := "unsupported content part" } }

/-- An embedding world in which the `Authorization` header does not parse. -/
def noBearerWorld : EmbeddingWorld :=
  { Sscanf := fun _ => Result.error { Error := "unexpected EOF" },
    ShouldBindJSON := fun _ => Result.ok { rest := "" },
    ToGenaiMessages := fun _ => Result.ok { contents := ["hi"] },
    ToGenaiModel := fun _ => "text-embedding-004",
    NewClient := fun _ => Result.ok { handle := 1 },
    GenerateEmbedding := fun _ _ => Result.ok { json := "" } }

/-- A chat world in which every call succeeds except `GenerateContent`; the
request is not streamed. -/
def failingChatWorld : ChatWorld :=
  { streamWorld [] false with
    ShouldBindJSON := fun _ => Result.ok { Model := "gemini-pro", Stream := false, rest := "" },
    GenerateContent := fun _ _ _ => Result.error { Error := "quota exceeded" } }

/-- An embedding world in which every call succeeds except `GenerateEmbedding`. -/
def failingEmbeddingWorld : EmbeddingWorld :=
  { noBearerWorld with
    Sscanf := fun _ => Result.ok "k",
    GenerateEmbedding := fun _ _ => Result.error { Error := "quota exceeded" } }

/-! ## Lemmas -/

theorem Values_Set (h : Header) (key value k : String) :
    Header.Values (Header.Set h key value) k
      = if key = k then some [value] else Header.Values h k := by
  unfold Header.Set
  by_cases hk : key = k
  · simp [Header.Values, hk]
  · simp only [Header.Values, hk, if_false]
    induction h with
    | nil => simp [Header.Values]
    | cons p t ih =>
      obtain ⟨a, vs⟩ := p
      simp only [ne_eq, decide_not] at ih
      by_cases ha : a = key
      · subst ha
        simp [List.filter, Header.Values, hk, ih]
      · simp [List.filter, ha, Header.Values, ih]

/-- Enough fuel: with one turn per payload plus one, and any number of further
turns, the stream loop over `streamStep` yields `streamTrace`. -/
theorem Stream_fuel (c : Context) (extra : Nat) :
    ∀ (ps : List String) (b : Bool) (i : Nat),
      c.Stream streamStep (ps.length + 1 + extra) i { payloads := ps, endedByError := b }
        = streamTrace c.clientGone i ps := by
  intro ps
  induction ps with
  | nil =>
    intro b i
    simp only [List.length_nil, Nat.zero_add]
    rw [Nat.add_comm 1 extra]
    simp [Context.Stream, streamStep, DataChan.recv, streamTrace]
  | cons d ds ih =>
    intro b i
    have hlen : (d :: ds).length + 1 + extra = (ds.length + 1 + extra) + 1 := by
      simp [List.length_cons]; omega
    rw [hlen]
    simp only [Context.Stream, streamStep, DataChan.recv, streamTrace]
    by_cases hg : c.clientGone i = true
    · simp [hg]
    · simp [hg, ih b (i + 1)]

theorem rendered_streamTrace (gone : Nat → Bool) :
    ∀ (ps : List String) (i : Nat),
      rendered (streamTrace gone i ps) = (received (streamTrace gone i ps)).map sseFrame := by
  intro ps
  induction ps with
  | nil =>
    intro i
    by_cases hg : gone i = true
    · simp [streamTrace, hg, rendered, received]
    · simp [streamTrace, hg, rendered, received, sseFrame]
  | cons d ds ih =>
    intro i
    by_cases hg : gone i = true
    · simp [streamTrace, hg, rendered, received]
    · have := ih (i + 1)
      simp only [rendered, received] at this
      simp [streamTrace, hg, rendered, received, sseFrame, this]

theorem received_streamTrace (gone : Nat → Bool) :
    ∀ (ps : List String) (i : Nat), (∀ j, j ≤ ps.length → gone (i + j) = false) →
      received (streamTrace gone i ps) = ps.map some ++ [none] := by
  intro ps
  induction ps with
  | nil =>
    intro i h
    have h0 := h 0 (Nat.le_refl _)
    simp at h0
    simp [streamTrace, h0, received]
  | cons d ds ih =>
    intro i h
    have h0 := h 0 (Nat.zero_le _)
    simp at h0
    have hrest : ∀ j, j ≤ ds.length → gone (i + 1 + j) = false := by
      intro j hj
      have := h (j + 1) (by simp [List.length_cons]; omega)
      rwa [show i + (j + 1) = i + 1 + j by omega] at this
    have := ih (i + 1) hrest
    simp only [received] at this
    simp [streamTrace, h0, received, this]

/-- What the stream loop receives is an initial segment of the history of the
channel: delivered payloads in order, then possibly the closure. -/
theorem received_streamTrace_sub (gone : Nat → Bool) :
    ∀ (ps : List String) (i : Nat),
      received (streamTrace gone i ps) <+: ps.map some ++ [none] := by
  intro ps
  induction ps with
  | nil =>
    intro i
    by_cases hg : gone i = true
    · simp [streamTrace, hg, received]
    · simp [streamTrace, hg, received]
  | cons d ds ih =>
    intro i
    by_cases hg : gone i = true
    · simp [streamTrace, hg, received]
    · have := ih (i + 1)
      simp only [received] at this
      simp [streamTrace, hg, received, List.prefix_cons_inj, this]

theorem mem_streamTrace (gone : Nat → Bool) (e : Event) :
    ∀ (ps : List String) (i : Nat), e ∈ streamTrace gone i ps →
      (∃ d, e = Event.Render (-1) d) ∨ (∃ r, e = Event.Recv r) := by
  intro ps
  induction ps with
  | nil =>
    intro i h
    by_cases hg : gone i = true
    · simp [streamTrace, hg] at h
    · simp [streamTrace, hg] at h
      rcases h with h | h
      · exact Or.inr ⟨_, h⟩
      · exact Or.inl ⟨_, h⟩
  | cons d ds ih =>
    intro i h
    by_cases hg : gone i = true
    · simp [streamTrace, hg] at h
    · simp [streamTrace, hg] at h
      rcases h with h | h | h
      · exact Or.inr ⟨_, h⟩
      · exact Or.inl ⟨_, h⟩
      · exact ih _ h

theorem filterMap_streamTrace {β : Type} (f : Event → Option β)
    (hR : ∀ code d, f (Event.Render code d) = none) (hV : ∀ r, f (Event.Recv r) = none)
    (gone : Nat → Bool) (i : Nat) (ps : List String) :
    (streamTrace gone i ps).filterMap f = [] := by
  rw [List.filterMap_eq_nil_iff]
  intro e he
  rcases mem_streamTrace gone e ps i he with ⟨d, rfl⟩ | ⟨r, rfl⟩
  · exact hR _ _
  · exact hV _

theorem countP_streamTrace (p : Event → Bool)
    (hR : ∀ code d, p (Event.Render code d) = false) (hV : ∀ r, p (Event.Recv r) = false)
    (gone : Nat → Bool) (i : Nat) (ps : List String) :
    (streamTrace gone i ps).countP p = 0 := by
  rw [List.countP_eq_zero]
  intro e he
  rcases mem_streamTrace gone e ps i he with ⟨d, rfl⟩ | ⟨r, rfl⟩
  · simp [hR]
  · simp [hV]

theorem filter_streamTrace (p : Event → Bool)
    (hR : ∀ code d, p (Event.Render code d) = false) (hV : ∀ r, p (Event.Recv r) = false)
    (gone : Nat → Bool) (i : Nat) (ps : List String) :
    (streamTrace gone i ps).filter p = [] := by
  rw [List.filter_eq_nil_iff]
  intro e he
  rcases mem_streamTrace gone e ps i he with ⟨d, rfl⟩ | ⟨r, rfl⟩
  · simp [hR]
  · simp [hV]

theorem responses_streamTrace (gone : Nat → Bool) (i : Nat) (ps : List String) :
    responses (streamTrace gone i ps) = [] :=
  filterMap_streamTrace _ (fun _ _ => rfl) (fun _ => rfl) gone i ps

/-- The shapes of a chat trace: the six exits of `ChatProxyHandler` other than
a run of the stream loop, and the stream run. -/
theorem ChatProxyHandler_cases (w : ChatWorld) (c : Context) :
    (∃ err, ChatProxyHandler w c = [badRequest err]) ∨
    (∃ key err, ChatProxyHandler w c =
        [Event.NewClient key (Result.error err),
         Event.Log ("new genai client error " ++ err.Error ++ "\n"), badRequest err]) ∨
    (∃ key client req msgs err,
        w.ShouldBindJSON c.body = Result.ok req ∧ w.ToGenaiMessages req = Result.ok msgs ∧
        req.Stream = false ∧
        w.GenerateContent (NewGeminiAdapter client req.Model) req msgs = Result.error err ∧
        ChatProxyHandler w c =
          [Event.NewClient key (Result.ok client),
           Event.GenerateContent (NewGeminiAdapter client req.Model) req msgs (Result.error err),
           Event.Log ("genai generate content error " ++ err.Error ++ "\n"), badRequest err,
           Event.Close client]) ∨
    (∃ key client req msgs resp,
        w.ShouldBindJSON c.body = Result.ok req ∧ w.ToGenaiMessages req = Result.ok msgs ∧
        req.Stream = false ∧
        w.GenerateContent (NewGeminiAdapter client req.Model) req msgs = Result.ok resp ∧
        ChatProxyHandler w c =
          [Event.NewClient key (Result.ok client),
           Event.GenerateContent (NewGeminiAdapter client req.Model) req msgs (Result.ok resp),
           Event.JSON StatusOK (Body.ChatCompletionResponse resp),
           Event.Close client]) ∨
    (∃ key client req msgs err,
        w.ShouldBindJSON c.body = Result.ok req ∧ w.ToGenaiMessages req = Result.ok msgs ∧
        req.Stream = true ∧
        w.GenerateStreamContent (NewGeminiAdapter client req.Model) req msgs = Result.error err ∧
        ChatProxyHandler w c =
          [Event.NewClient key (Result.ok client),
           Event.GenerateStreamContent (NewGeminiAdapter client req.Model) req msgs (Result.error err),
           Event.Log ("genai generate content error " ++ err.Error ++ "\n"), badRequest err,
           Event.Close client]) ∨
    (∃ key client req msgs ch,
        w.ShouldBindJSON c.body = Result.ok req ∧ w.ToGenaiMessages req = Result.ok msgs ∧
        req.Stream = true ∧
        w.GenerateStreamContent (NewGeminiAdapter client req.Model) req msgs = Result.ok ch ∧
        ChatProxyHandler w c =
          Event.NewClient key (Result.ok client) ::
          Event.GenerateStreamContent (NewGeminiAdapter client req.Model) req msgs (Result.ok ch) ::
          (setEventStreamHeaders ++ streamTrace c.clientGone 0 ch.payloads ++ [Event.Close client])) := by
  cases h1 : w.Sscanf (c.GetHeader "Authorization") with
  | error err => left; exact ⟨err, by simp [ChatProxyHandler, h1]⟩
  | ok key =>
    cases h2 : w.ShouldBindJSON c.body with
    | error err => left; exact ⟨err, by simp [ChatProxyHandler, h1, h2]⟩
    | ok req =>
      cases h3 : w.ToGenaiMessages req with
      | error err => left; exact ⟨err, by simp [ChatProxyHandler, h1, h2, h3]⟩
      | ok msgs =>
        cases h4 : w.NewClient key with
        | error err => right; left; exact ⟨key, err, by simp [ChatProxyHandler, h1, h2, h3, h4]⟩
        | ok client =>
          cases hs : req.Stream with
          | false =>
            cases h5 : w.GenerateContent (NewGeminiAdapter client req.Model) req msgs with
            | error err =>
              right; right; left
              exact ⟨key, client, req, msgs, err, rfl, h3, hs, h5,
                by simp [ChatProxyHandler, h1, h2, h3, h4, hs, h5]⟩
            | ok resp =>
              right; right; right; left
              exact ⟨key, client, req, msgs, resp, rfl, h3, hs, h5,
                by simp [ChatProxyHandler, h1, h2, h3, h4, hs, h5]⟩
          | true =>
            cases h5 : w.GenerateStreamContent (NewGeminiAdapter client req.Model) req msgs with
            | error err =>
              right; right; right; right; left
              exact ⟨key, client, req, msgs, err, rfl, h3, hs, h5,
                by simp [ChatProxyHandler, h1, h2, h3, h4, hs, h5]⟩
            | ok ch =>
              right; right; right; right; right
              refine ⟨key, client, req, msgs, ch, rfl, h3, hs, h5, ?_⟩
              have hf := Stream_fuel c 0 ch.payloads ch.endedByError 0
              simp only [Nat.add_zero] at hf
              simp [ChatProxyHandler, h1, h2, h3, h4, hs, h5, hf]

/-- The shapes of an embedding trace. -/
theorem EmbeddingProxyHandler_cases (w : EmbeddingWorld) (c : Context) :
    (∃ err, EmbeddingProxyHandler w c = [badRequest err]) ∨
    (∃ key err, EmbeddingProxyHandler w c =
        [Event.NewClient key (Result.error err),
         Event.Log ("new genai client error " ++ err.Error ++ "\n"), badRequest err]) ∨
    (∃ key client g msgs err,
        w.GenerateEmbedding g msgs = Result.error err ∧
        EmbeddingProxyHandler w c =
          [Event.NewClient key (Result.ok client),
           Event.GenerateEmbedding g msgs (Result.error err),
           Event.Log ("genai generate content error " ++ err.Error ++ "\n"), badRequest err,
           Event.Close client]) ∨
    (∃ key client g msgs resp,
        w.GenerateEmbedding g msgs = Result.ok resp ∧
        EmbeddingProxyHandler w c =
          [Event.NewClient key (Result.ok client),
           Event.GenerateEmbedding g msgs (Result.ok resp),
           Event.JSON StatusOK (Body.EmbeddingResponse resp),
           Event.Close client]) := by
  cases h1 : w.Sscanf (c.GetHeader "Authorization") with
  | error err => left; exact ⟨err, by simp [EmbeddingProxyHandler, h1]⟩
  | ok key =>
    cases h2 : w.ShouldBindJSON c.body with
    | error err => left; exact ⟨err, by simp [EmbeddingProxyHandler, h1, h2]⟩
    | ok req =>
      cases h3 : w.ToGenaiMessages req with
      | error err => left; exact ⟨err, by simp [EmbeddingProxyHandler, h1, h2, h3]⟩
      | ok msgs =>
        cases h4 : w.NewClient key with
        | error err =>
          right; left; exact ⟨key, err, by simp [EmbeddingProxyHandler, h1, h2, h3, h4]⟩
        | ok client =>
          cases h5 : w.GenerateEmbedding (NewGeminiAdapter client (w.ToGenaiModel req)) msgs with
          | error err =>
            right; right; left
            exact ⟨key, client, NewGeminiAdapter client (w.ToGenaiModel req), msgs, err, h5,
              by simp [EmbeddingProxyHandler, h1, h2, h3, h4, h5]⟩
          | ok resp =>
            right; right; right
            exact ⟨key, client, NewGeminiAdapter client (w.ToGenaiModel req), msgs, resp, h5,
              by simp [EmbeddingProxyHandler, h1, h2, h3, h4, h5]⟩

theorem rendered_ChatProxyHandler (w : ChatWorld) (c : Context) :
    rendered (ChatProxyHandler w c) = (received (ChatProxyHandler w c)).map sseFrame := by
  rcases ChatProxyHandler_cases w c with ⟨err, h⟩ | ⟨key, err, h⟩ | ⟨key, cl, req, m, err, -, -, -, -, h⟩ |
    ⟨key, cl, req, m, resp, -, -, -, -, h⟩ | ⟨key, cl, req, m, err, -, -, -, -, h⟩ |
    ⟨key, cl, req, m, ch, -, -, -, -, h⟩
  all_goals rw [h]
  all_goals try simp [rendered, received, badRequest]
  have := rendered_streamTrace c.clientGone ch.payloads 0
  simp only [rendered, received] at this
  simp [setEventStreamHeaders, List.filterMap_append, this]

theorem map_some_initial (ps : List String) :
    ∀ qs : List String, (ps.map some ++ [none]) <+: (qs.map some ++ [none]) → ps = qs := by
  induction ps with
  | nil =>
    intro qs h
    cases qs with
    | nil => rfl
    | cons q qs => simp [List.prefix_cons_inj] at h
  | cons p ps ih =>
    intro qs h
    cases qs with
    | nil =>
      simp at h
    | cons q qs =>
      simp only [List.map_cons, List.cons_append] at h
      rw [List.cons_prefix_cons] at h
      obtain ⟨hpq, hrest⟩ := h
      simp at hpq
      rw [hpq, ih qs hrest]

/-- C1: when the receives of a chat run on the data channel returned by
`GenerateStreamContent` deliver the payloads `d1..dn` and then find the channel
closed, the run renders exactly `n+1` events: `"data: " ++ d_i` in arrival
order, then `"data: [DONE]"` once, and nothing after it; the payloads are then
the whole history of the channel.  A run whose stream started and whose client
stays connected does receive the whole history of the channel and its closure,
so it renders these `n+1` events.  The callback answers `false` (stop) on a
closed channel. -/
theorem ChatProxyHandler_clean_stream (w : ChatWorld) (c : Context) :
    (∀ ps : List String, received (ChatProxyHandler w c) = ps.map some ++ [none] →
      rendered (ChatProxyHandler w c) = ps.map (fun d => "data: " ++ d) ++ ["data: [DONE]"] ∧
      (rendered (ChatProxyHandler w c)).length = ps.length + 1 ∧
      ∃ g req msgs ch,
        Event.GenerateStreamContent g req msgs (Result.ok ch) ∈ ChatProxyHandler w c ∧
        ch.payloads = ps) ∧
    (∀ g req msgs ch,
      Event.GenerateStreamContent g req msgs (Result.ok ch) ∈ ChatProxyHandler w c →
      (∀ i, i ≤ ch.payloads.length → c.clientGone i = false) →
      received (ChatProxyHandler w c) = ch.payloads.map some ++ [none] ∧
      rendered (ChatProxyHandler w c)
        = ch.payloads.map (fun d => "data: " ++ d) ++ ["data: [DONE]"]) ∧
    (∀ b, (streamStep { payloads := [], endedByError := b }).2.1 = false) := by
  have key : ∀ ps : List String, received (ChatProxyHandler w c) = ps.map some ++ [none] →
      rendered (ChatProxyHandler w c)
        = ps.map (fun d => "data: " ++ d) ++ ["data: [DONE]"] := by
    intro ps h
    rw [rendered_ChatProxyHandler, h]
    simp [sseFrame, Function.comp_def]
  refine ⟨?_, ?_, by intro b; simp [streamStep, DataChan.recv]⟩
  · intro ps h
    have hr := key ps h
    refine ⟨hr, by simp [hr], ?_⟩
    rcases ChatProxyHandler_cases w c with ⟨err, h1⟩ | ⟨k, err, h1⟩ |
      ⟨k, cl, req, m, err, -, -, -, -, h1⟩ | ⟨k, cl, req, m, resp, -, -, -, -, h1⟩ |
      ⟨k, cl, req, m, err, -, -, -, -, h1⟩ | ⟨k, cl, req, m, ch, -, -, -, -, h1⟩
    all_goals rw [h1] at h ⊢
    all_goals try (simp [received, badRequest] at h; done)
    refine ⟨NewGeminiAdapter cl req.Model, req, m, ch, by simp, ?_⟩
    have hsub := received_streamTrace_sub c.clientGone ch.payloads 0
    have hrec : received (streamTrace c.clientGone 0 ch.payloads) = ps.map some ++ [none] := by
      simpa [received, setEventStreamHeaders, List.filterMap_append] using h
    rw [hrec] at hsub
    exact (map_some_initial ps ch.payloads hsub).symm
  · intro g req msgs ch hm hconn
    have hrecv : received (ChatProxyHandler w c) = ch.payloads.map some ++ [none] := by
      rcases ChatProxyHandler_cases w c with ⟨err, h1⟩ | ⟨k, err, h1⟩ |
        ⟨k, cl, rq, m, err, -, -, -, -, h1⟩ | ⟨k, cl, rq, m, resp, -, -, -, -, h1⟩ |
        ⟨k, cl, rq, m, err, -, -, -, -, h1⟩ | ⟨k, cl, rq, m, ch1, -, -, -, -, h1⟩
      all_goals rw [h1] at hm ⊢
      all_goals try (simp [badRequest] at hm; done)
      have hch : ch = ch1 := by
        simp [setEventStreamHeaders] at hm
        rcases hm with ⟨-, -, -, hm⟩ | hm
        · exact hm
        · rcases mem_streamTrace _ _ _ _ hm with ⟨d, hd⟩ | ⟨r, hr⟩
          · cases hd
          · cases hr
      subst hch
      have := received_streamTrace c.clientGone ch.payloads 0
        (fun j hj => by simpa using hconn j hj)
      simp only [received] at this
      simp [received, setEventStreamHeaders, List.filterMap_append, this]
    exact ⟨hrecv, key _ hrecv⟩

/-- Witness of C1: the run over `["Hel", "lo", ", world"]` followed by a clean
end, with a client that stays connected. -/
theorem ChatProxyHandler_clean_stream_witness :
    (received (ChatProxyHandler (streamWorld ["Hel", "lo", ", world"] false) sampleContext)
        = List.map some ["Hel", "lo", ", world"] ++ [none] ∧
     rendered (ChatProxyHandler (streamWorld ["Hel", "lo", ", world"] false) sampleContext)
        = ["data: Hel", "data: lo", "data: , world", "data: [DONE]"]) ∧
    (Event.GenerateStreamContent (NewGeminiAdapter { handle := 1 } "gemini-pro")
        { Model := "gemini-pro", Stream := true, rest := "" } { contents := ["hi"] }
        (Result.ok { payloads := ["Hel", "lo", ", world"], endedByError := false })
      ∈ ChatProxyHandler (streamWorld ["Hel", "lo", ", world"] false) sampleContext ∧
     (∀ i, i ≤ 3 → sampleContext.clientGone i = false) ∧
     rendered (ChatProxyHandler (streamWorld ["Hel", "lo", ", world"] false) sampleContext)
        = ["data: Hel", "data: lo", "data: , world", "data: [DONE]"]) :=
  ⟨⟨by decide,
    ((ChatProxyHandler_clean_stream (streamWorld ["Hel", "lo", ", world"] false)
        sampleContext).1 ["Hel", "lo", ", world"] (by decide)).1.trans (by decide)⟩,
   ⟨by decide, fun _ _ => rfl,
    ((ChatProxyHandler_clean_stream (streamWorld ["Hel", "lo", ", world"] false)
        sampleContext).2.1 (NewGeminiAdapter { handle := 1 } "gemini-pro")
        { Model := "gemini-pro", Stream := true, rest := "" } { contents := ["hi"] }
        { payloads := ["Hel", "lo", ", world"], endedByError := false }
        (by decide) (fun _ _ => rfl)).2.trans (by decide)⟩⟩

/-- Counterexample to C2: the data channel delivers `"Hel"`, `"lo"` and is then
closed because the upstream sequence failed; the run renders the two chunk
events and then `"data: [DONE]"`, the very events of the clean run. -/
theorem abort_stream_renders_DONE :
    Event.GenerateStreamContent (NewGeminiAdapter { handle := 1 } "gemini-pro")
        { Model := "gemini-pro", Stream := true, rest := "" } { contents := ["hi"] }
        (Result.ok { payloads := ["Hel", "lo"], endedByError := true })
      ∈ ChatProxyHandler (streamWorld ["Hel", "lo"] true) sampleContext ∧
    received (ChatProxyHandler (streamWorld ["Hel", "lo"] true) sampleContext)
      = [some "Hel", some "lo", none] ∧
    rendered (ChatProxyHandler (streamWorld ["Hel", "lo"] true) sampleContext)
      = ["data: Hel", "data: lo", "data: [DONE]"] ∧
    "data: [DONE]" ∈ rendered (ChatProxyHandler (streamWorld ["Hel", "lo"] true) sampleContext) ∧
    rendered (ChatProxyHandler (streamWorld ["Hel", "lo"] true) sampleContext)
      = rendered (ChatProxyHandler (streamWorld ["Hel", "lo"] false) sampleContext) := by
  refine ⟨by decide, by decide, by decide, by decide, by decide⟩

/-- C2, amended: when the data channel of a streamed chat run delivers its `N`
payloads and is then closed because the upstream sequence failed, the run
renders the `N` chunk events followed by `"data: [DONE]"`, and a run whose
channel delivers the same payloads and ends cleanly renders the same events. -/
theorem ChatProxyHandler_abort_stream (w : ChatWorld) (c : Context) (g : GeminiAdapter)
    (req : ChatCompletionRequest) (msgs : Messages) (ch : DataChan)
    (_hrun : Event.GenerateStreamContent g req msgs (Result.ok ch) ∈ ChatProxyHandler w c)
    (_herr : ch.endedByError = true)
    (hrecv : received (ChatProxyHandler w c) = ch.payloads.map some ++ [none]) :
    rendered (ChatProxyHandler w c)
      = ch.payloads.map (fun d => "data: " ++ d) ++ ["data: [DONE]"] ∧
    ∀ (w2 : ChatWorld) (c2 : Context) (g2 : GeminiAdapter) (req2 : ChatCompletionRequest)
      (msgs2 : Messages),
      Event.GenerateStreamContent g2 req2 msgs2
          (Result.ok { payloads := ch.payloads, endedByError := false }) ∈ ChatProxyHandler w2 c2 →
      received (ChatProxyHandler w2 c2) = ch.payloads.map some ++ [none] →
      rendered (ChatProxyHandler w2 c2) = rendered (ChatProxyHandler w c) := by
  constructor
  · rw [rendered_ChatProxyHandler, hrecv]
    simp [sseFrame, Function.comp_def]
  · intro w2 c2 g2 req2 msgs2 _ h2
    rw [rendered_ChatProxyHandler, rendered_ChatProxyHandler, hrecv, h2]

/-- Witness of the amended C2: the aborted run over `["Hel", "lo"]`. -/
theorem ChatProxyHandler_abort_stream_witness :
    rendered (ChatProxyHandler (streamWorld ["Hel", "lo"] true) sampleContext)
      = ["data: Hel", "data: lo", "data: [DONE]"] :=
  (ChatProxyHandler_abort_stream (streamWorld ["Hel", "lo"] true) sampleContext
      (NewGeminiAdapter { handle := 1 } "gemini-pro")
      { Model := "gemini-pro", Stream := true, rest := "" } { contents := ["hi"] }
      { payloads := ["Hel", "lo"], endedByError := true }
      (by decide) rfl (by decide)).1.trans (by decide)

/-- C8: `ModelListHandler` answers every request with the same single response:
status 200 and a body whose `"object"` is `"list"` and whose `"data"` is the
fixed sequence of four models `Gemini1Pro`, `Gemini1Dot5Flash`,
`Gemini1Dot5Pro`, `TextEmbedding004`, each with `Object` `"model"`, `CreatedAt`
`1686935002` and an owner; the handler reads no credential and makes no
upstream call. -/
theorem ModelListHandler_static (k : ModelNames) (c1 c2 : Context) :
    ModelListHandler k c1 = ModelListHandler k c2 ∧
    ∃ body, ModelListHandler k c1 = [Event.JSON 200 body] ∧
      body.field "object" = some (HValue.str "list") ∧
      body.field "data" = some (HValue.list
        [{ CreatedAt := 1686935002, ID := k.Gemini1Pro, Object := "model", OwnedBy := "google" },
         { CreatedAt := 1686935002, ID := k.Gemini1Dot5Flash, Object := "model", OwnedBy := "google" },
         { CreatedAt := 1686935002, ID := k.Gemini1Dot5Pro, Object := "model", OwnedBy := "google" },
         { CreatedAt := 1686935002, ID := k.TextEmbedding004, Object := "model",
           OwnedBy := "openai" }]) := by
  refine ⟨rfl, _, rfl, ?_, ?_⟩
  · simp [Body.field]
  · simp [Body.field]

/-- C10, as the code behaves: `ModelRetrieveHandler` called with the identifier
of a listed model returns that model with owner `"google"`; the entry
`TextEmbedding004` is listed with owner `"openai"`, so retrieval differs from
the listing on it. -/
theorem ModelRetrieveHandler_owner_differs (k : ModelNames) (c : Context) :
    (∀ m, m ∈ listedModels (ModelListHandler k c) →
      retrievedModel (ModelRetrieveHandler { c with params := [("model", m.ID)] })
        = some { m with OwnedBy := "google" }) ∧
    ({ CreatedAt := 1686935002, ID := k.TextEmbedding004, Object := "model", OwnedBy := "openai" }
        : Model) ∈ listedModels (ModelListHandler k c) ∧
    retrievedModel (ModelRetrieveHandler { c with params := [("model", k.TextEmbedding004)] })
      ≠ some { CreatedAt := 1686935002, ID := k.TextEmbedding004, Object := "model",
               OwnedBy := "openai" } := by
  have hl : listedModels (ModelListHandler k c) =
      [{ CreatedAt := 1686935002, ID := k.Gemini1Pro, Object := "model", OwnedBy := "google" },
       { CreatedAt := 1686935002, ID := k.Gemini1Dot5Flash, Object := "model", OwnedBy := "google" },
       { CreatedAt := 1686935002, ID := k.Gemini1Dot5Pro, Object := "model", OwnedBy := "google" },
       { CreatedAt := 1686935002, ID := k.TextEmbedding004, Object := "model",
         OwnedBy := "openai" }] := by
    simp [listedModels, ModelListHandler, Body.field]
  refine ⟨?_, ?_, ?_⟩
  · intro m hm
    rw [hl] at hm
    simp at hm
    rcases hm with rfl | rfl | rfl | rfl <;>
      simp [retrievedModel, ModelRetrieveHandler, Context.Param]
  · rw [hl]; simp
  · simp [retrievedModel, ModelRetrieveHandler, Context.Param]

theorem ChatProxyHandler_invalid (w : ChatWorld) (c : Context) (h : w.invalidInput c) :
    ∃ err, ChatProxyHandler w c = [badRequest err] := by
  cases h1 : w.Sscanf (c.GetHeader "Authorization") with
  | error err => exact ⟨err, by simp [ChatProxyHandler, h1]⟩
  | ok key =>
    cases h2 : w.ShouldBindJSON c.body with
    | error err => exact ⟨err, by simp [ChatProxyHandler, h1, h2]⟩
    | ok req =>
      cases h3 : w.ToGenaiMessages req with
      | error err => exact ⟨err, by simp [ChatProxyHandler, h1, h2, h3]⟩
      | ok msgs =>
        exfalso
        rcases h with ⟨e, he⟩ | ⟨e, he⟩ | ⟨r, e, hr, he⟩
        · rw [h1] at he; cases he
        · rw [h2] at he; cases he
        · rw [h2] at hr; cases hr; rw [h3] at he; cases he

theorem EmbeddingProxyHandler_invalid (w : EmbeddingWorld) (c : Context) (h : w.invalidInput c) :
    ∃ err, EmbeddingProxyHandler w c = [badRequest err] := by
  cases h1 : w.Sscanf (c.GetHeader "Authorization") with
  | error err => exact ⟨err, by simp [EmbeddingProxyHandler, h1]⟩
  | ok key =>
    cases h2 : w.ShouldBindJSON c.body with
    | error err => exact ⟨err, by simp [EmbeddingProxyHandler, h1, h2]⟩
    | ok req =>
      cases h3 : w.ToGenaiMessages req with
      | error err => exact ⟨err, by simp [EmbeddingProxyHandler, h1, h2, h3]⟩
      | ok msgs =>
        exfalso
        rcases h with ⟨e, he⟩ | ⟨e, he⟩ | ⟨r, e, hr, he⟩
        · rw [h1] at he; cases he
        · rw [h2] at he; cases he
        · rw [h2] at hr; cases hr; rw [h3] at he; cases he

/-- The responses of a chat run: none (a stream), one error response, or the
status-200 completion. -/
theorem responses_ChatProxyHandler (w : ChatWorld) (c : Context) :
    responses (ChatProxyHandler w c) = [] ∨
    (∃ err, responses (ChatProxyHandler w c) = [errorResponse err]) ∨
    (∃ resp, responses (ChatProxyHandler w c) = [(200, Body.ChatCompletionResponse resp)]) := by
  rcases ChatProxyHandler_cases w c with ⟨err, h⟩ | ⟨key, err, h⟩ | ⟨key, cl, req, m, err, -, -, -, -, h⟩ |
    ⟨key, cl, req, m, resp, -, -, -, -, h⟩ | ⟨key, cl, req, m, err, -, -, -, -, h⟩ |
    ⟨key, cl, req, m, ch, -, -, -, -, h⟩
  · right; left; exact ⟨err, by rw [h]; rfl⟩
  · right; left; exact ⟨err, by rw [h]; rfl⟩
  · right; left; exact ⟨err, by rw [h]; rfl⟩
  · right; right; exact ⟨resp, by rw [h]; rfl⟩
  · right; left; exact ⟨err, by rw [h]; rfl⟩
  · left
    rw [h]
    have := responses_streamTrace c.clientGone 0 ch.payloads
    simp only [responses] at this
    simp [responses, setEventStreamHeaders, List.filterMap_append, this]

/-- The responses of an embedding run: one error response, or the status-200
embedding. -/
theorem responses_EmbeddingProxyHandler (w : EmbeddingWorld) (c : Context) :
    (∃ err, responses (EmbeddingProxyHandler w c) = [errorResponse err]) ∨
    (∃ resp, responses (EmbeddingProxyHandler w c) = [(200, Body.EmbeddingResponse resp)]) := by
  rcases EmbeddingProxyHandler_cases w c with ⟨err, h⟩ | ⟨key, err, h⟩ |
    ⟨key, cl, g, m, err, -, h⟩ | ⟨key, cl, g, m, resp, -, h⟩
  · left; exact ⟨err, by rw [h]; rfl⟩
  · left; exact ⟨err, by rw [h]; rfl⟩
  · left; exact ⟨err, by rw [h]; rfl⟩
  · right; exact ⟨resp, by rw [h]; rfl⟩

/-- C3: in `ChatProxyHandler` and in `EmbeddingProxyHandler`, when the
`Authorization` header does not parse as `Bearer <token>`, or the body does not
bind, or `req.ToGenaiMessages()` fails, the handler writes exactly one
response, with status 400, and its run contains neither the creation of an
upstream client nor a call of `GenerateContent`, `GenerateStreamContent` or
`GenerateEmbedding`. -/
theorem invalid_input_rejected (wc : ChatWorld) (we : EmbeddingWorld) (c : Context) :
    (wc.invalidInput c →
      (∃ body, responses (ChatProxyHandler wc c) = [(400, body)]) ∧
      ∀ e, e ∈ ChatProxyHandler wc c → e.isNewClient = false ∧ e.isUpstreamCall = false) ∧
    (we.invalidInput c →
      (∃ body, responses (EmbeddingProxyHandler we c) = [(400, body)]) ∧
      ∀ e, e ∈ EmbeddingProxyHandler we c → e.isNewClient = false ∧ e.isUpstreamCall = false) := by
  constructor
  · intro h
    obtain ⟨err, ht⟩ := ChatProxyHandler_invalid wc c h
    rw [ht]
    simp [responses, badRequest, StatusBadRequest, Event.isNewClient, Event.isUpstreamCall]
  · intro h
    obtain ⟨err, ht⟩ := EmbeddingProxyHandler_invalid we c h
    rw [ht]
    simp [responses, badRequest, StatusBadRequest, Event.isNewClient, Event.isUpstreamCall]

/-- Witness of C3: a chat request with an unsupported content part, and an
embedding request without a bearer credential. -/
theorem invalid_input_rejected_witness :
    (unsupportedWorld.invalidInput sampleContext ∧
      (∃ body, responses (ChatProxyHandler unsupportedWorld sampleContext) = [(400, body)]) ∧
      ∀ e, e ∈ ChatProxyHandler unsupportedWorld sampleContext →
        e.isNewClient = false ∧ e.isUpstreamCall = false) ∧
    (noBearerWorld.invalidInput sampleContext ∧
      (∃ body, responses (EmbeddingProxyHandler noBearerWorld sampleContext) = [(400, body)]) ∧
      ∀ e, e ∈ EmbeddingProxyHandler noBearerWorld sampleContext →
        e.isNewClient = false ∧ e.isUpstreamCall = false) :=
  have hc : unsupportedWorld.invalidInput sampleContext :=
    Or.inr (Or.inr ⟨_, _, rfl, rfl⟩)
  have he : noBearerWorld.invalidInput sampleContext := Or.inl ⟨_, rfl⟩
  ⟨⟨hc, (invalid_input_rejected unsupportedWorld noBearerWorld sampleContext).1 hc⟩,
   ⟨he, (invalid_input_rejected unsupportedWorld noBearerWorld sampleContext).2 he⟩⟩

/-- C7: every error exit of `ChatProxyHandler` and `EmbeddingProxyHandler`
(credential parse, JSON bind, request translation, client creation, upstream
call, stream start) writes exactly one response: status 400 with an `APIError`
whose `Code` is 400 and whose `Message` is the text of the error that caused
the exit.  No run writes more than one response, and a response is either the
status-200 body or such a status-400 `APIError`. -/
theorem error_exits_carry_code_and_message (wc : ChatWorld) (we : EmbeddingWorld) (c : Context)
    (err : GoError) :
    ((wc.Sscanf (c.GetHeader "Authorization") = Result.error err →
        responses (ChatProxyHandler wc c) = [errorResponse err]) ∧
     (∀ key, wc.Sscanf (c.GetHeader "Authorization") = Result.ok key →
        wc.ShouldBindJSON c.body = Result.error err →
        responses (ChatProxyHandler wc c) = [errorResponse err]) ∧
     (∀ key req, wc.Sscanf (c.GetHeader "Authorization") = Result.ok key →
        wc.ShouldBindJSON c.body = Result.ok req →
        wc.ToGenaiMessages req = Result.error err →
        responses (ChatProxyHandler wc c) = [errorResponse err]) ∧
     (∀ key req msgs, wc.Sscanf (c.GetHeader "Authorization") = Result.ok key →
        wc.ShouldBindJSON c.body = Result.ok req →
        wc.ToGenaiMessages req = Result.ok msgs →
        wc.NewClient key = Result.error err →
        responses (ChatProxyHandler wc c) = [errorResponse err]) ∧
     (∀ key req msgs client, wc.Sscanf (c.GetHeader "Authorization") = Result.ok key →
        wc.ShouldBindJSON c.body = Result.ok req →
        wc.ToGenaiMessages req = Result.ok msgs →
        wc.NewClient key = Result.ok client →
        req.Stream = false →
        wc.GenerateContent (NewGeminiAdapter client req.Model) req msgs = Result.error err →
        responses (ChatProxyHandler wc c) = [errorResponse err]) ∧
     (∀ key req msgs client, wc.Sscanf (c.GetHeader "Authorization") = Result.ok key →
        wc.ShouldBindJSON c.body = Result.ok req →
        wc.ToGenaiMessages req = Result.ok msgs →
        wc.NewClient key = Result.ok client →
        req.Stream = true →
        wc.GenerateStreamContent (NewGeminiAdapter client req.Model) req msgs = Result.error err →
        responses (ChatProxyHandler wc c) = [errorResponse err]) ∧
     (responses (ChatProxyHandler wc c)).length ≤ 1 ∧
     (∀ st b, (st, b) ∈ responses (ChatProxyHandler wc c) →
        st = 200 ∨ ∃ e, (st, b) = errorResponse e)) ∧
    ((we.Sscanf (c.GetHeader "Authorization") = Result.error err →
        responses (EmbeddingProxyHandler we c) = [errorResponse err]) ∧
     (∀ key, we.Sscanf (c.GetHeader "Authorization") = Result.ok key →
        we.ShouldBindJSON c.body = Result.error err →
        responses (EmbeddingProxyHandler we c) = [errorResponse err]) ∧
     (∀ key req, we.Sscanf (c.GetHeader "Authorization") = Result.ok key →
        we.ShouldBindJSON c.body = Result.ok req →
        we.ToGenaiMessages req = Result.error err →
        responses (EmbeddingProxyHandler we c) = [errorResponse err]) ∧
     (∀ key req msgs, we.Sscanf (c.GetHeader "Authorization") = Result.ok key →
        we.ShouldBindJSON c.body = Result.ok req →
        we.ToGenaiMessages req = Result.ok msgs →
        we.NewClient key = Result.error err →
        responses (EmbeddingProxyHandler we c) = [errorResponse err]) ∧
     (∀ key req msgs client, we.Sscanf (c.GetHeader "Authorization") = Result.ok key →
        we.ShouldBindJSON c.body = Result.ok req →
        we.ToGenaiMessages req = Result.ok msgs →
        we.NewClient key = Result.ok client →
        we.GenerateEmbedding (NewGeminiAdapter client (we.ToGenaiModel req)) msgs
          = Result.error err →
        responses (EmbeddingProxyHandler we c) = [errorResponse err]) ∧
     (responses (EmbeddingProxyHandler we c)).length ≤ 1 ∧
     (∀ st b, (st, b) ∈ responses (EmbeddingProxyHandler we c) →
        st = 200 ∨ ∃ e, (st, b) = errorResponse e)) := by
  refine ⟨⟨?_, ?_, ?_, ?_, ?_, ?_, ?_, ?_⟩, ⟨?_, ?_, ?_, ?_, ?_, ?_, ?_⟩⟩
  · intro h1
    simp [ChatProxyHandler, h1, responses, badRequest, errorResponse, StatusBadRequest]
  · intro key h1 h2
    simp [ChatProxyHandler, h1, h2, responses, badRequest, errorResponse, StatusBadRequest]
  · intro key req h1 h2 h3
    simp [ChatProxyHandler, h1, h2, h3, responses, badRequest, errorResponse, StatusBadRequest]
  · intro key req msgs h1 h2 h3 h4
    simp [ChatProxyHandler, h1, h2, h3, h4, responses, badRequest, errorResponse,
      StatusBadRequest]
  · intro key req msgs client h1 h2 h3 h4 hs h5
    simp [ChatProxyHandler, h1, h2, h3, h4, hs, h5, responses, badRequest, errorResponse,
      StatusBadRequest]
  · intro key req msgs client h1 h2 h3 h4 hs h5
    simp [ChatProxyHandler, h1, h2, h3, h4, hs, h5, responses, badRequest, errorResponse,
      StatusBadRequest]
  · rcases responses_ChatProxyHandler wc c with h | ⟨e, h⟩ | ⟨r, h⟩ <;> simp [h]
  · intro st b hm
    rcases responses_ChatProxyHandler wc c with h | ⟨e, h⟩ | ⟨r, h⟩
    · simp [h] at hm
    · rw [h] at hm
      right
      exact ⟨e, by simpa using hm⟩
    · rw [h] at hm
      left
      simp at hm
      exact hm.1
  · intro h1
    simp [EmbeddingProxyHandler, h1, responses, badRequest, errorResponse, StatusBadRequest]
  · intro key h1 h2
    simp [EmbeddingProxyHandler, h1, h2, responses, badRequest, errorResponse, StatusBadRequest]
  · intro key req h1 h2 h3
    simp [EmbeddingProxyHandler, h1, h2, h3, responses, badRequest, errorResponse,
      StatusBadRequest]
  · intro key req msgs h1 h2 h3 h4
    simp [EmbeddingProxyHandler, h1, h2, h3, h4, responses, badRequest, errorResponse,
      StatusBadRequest]
  · intro key req msgs client h1 h2 h3 h4 h5
    simp [EmbeddingProxyHandler, h1, h2, h3, h4, h5, responses, badRequest, errorResponse,
      StatusBadRequest]
  · rcases responses_EmbeddingProxyHandler we c with ⟨e, h⟩ | ⟨r, h⟩ <;> simp [h]
  · intro st b hm
    rcases responses_EmbeddingProxyHandler we c with ⟨e, h⟩ | ⟨r, h⟩
    · rw [h] at hm
      right
      exact ⟨e, by simpa using hm⟩
    · rw [h] at hm
      left
      simp at hm
      exact hm.1

/-- Witness of C7: a chat request that does not translate, and an embedding
request without a bearer credential. -/
theorem error_exits_carry_code_and_message_witness :
    responses (ChatProxyHandler unsupportedWorld sampleContext)
      = [(400, Body.APIError { Code := 400, Message := "unsupported content part" })] ∧
    responses (EmbeddingProxyHandler noBearerWorld sampleContext)
      = [(400, Body.APIError { Code := 400, Message := "unexpected EOF" })] :=
  ⟨(error_exits_carry_code_and_message unsupportedWorld noBearerWorld sampleContext
      { Error := "unsupported content part" }).1.2.2.1 "k"
      { Model := "gemini-pro", Stream := true, rest := "" } rfl rfl rfl,
   (error_exits_carry_code_and_message unsupportedWorld noBearerWorld sampleContext
      { Error := "unexpected EOF" }).2.1 rfl⟩

/-- C4: in a non-streamed `ChatProxyHandler` run whose `GenerateContent` call
returned the error `e`, and in an `EmbeddingProxyHandler` run whose
`GenerateEmbedding` call returned `e`, the only response is the status-400
`APIError` with message `e.Error()`, and the upstream operation was called
exactly once.  Conversely a status-200 body is written only in a run whose
upstream call returned a value, and the body is that value. -/
theorem upstream_failure_not_swallowed (wc : ChatWorld) (we : EmbeddingWorld) (c : Context) :
    ((∀ g req msgs e,
        Event.GenerateContent g req msgs (Result.error e) ∈ ChatProxyHandler wc c →
        wc.GenerateContent g req msgs = Result.error e ∧
        responses (ChatProxyHandler wc c) = [errorResponse e] ∧
        (ChatProxyHandler wc c).countP Event.isUpstreamCall = 1) ∧
     (∀ body, (200, body) ∈ responses (ChatProxyHandler wc c) →
        ∃ g req msgs resp,
          wc.GenerateContent g req msgs = Result.ok resp ∧
          Event.GenerateContent g req msgs (Result.ok resp) ∈ ChatProxyHandler wc c ∧
          body = Body.ChatCompletionResponse resp ∧
          (ChatProxyHandler wc c).countP Event.isUpstreamCall = 1)) ∧
    ((∀ g msgs e,
        Event.GenerateEmbedding g msgs (Result.error e) ∈ EmbeddingProxyHandler we c →
        we.GenerateEmbedding g msgs = Result.error e ∧
        responses (EmbeddingProxyHandler we c) = [errorResponse e] ∧
        (EmbeddingProxyHandler we c).countP Event.isUpstreamCall = 1) ∧
     (∀ body, (200, body) ∈ responses (EmbeddingProxyHandler we c) →
        ∃ g msgs resp,
          we.GenerateEmbedding g msgs = Result.ok resp ∧
          Event.GenerateEmbedding g msgs (Result.ok resp) ∈ EmbeddingProxyHandler we c ∧
          body = Body.EmbeddingResponse resp ∧
          (EmbeddingProxyHandler we c).countP Event.isUpstreamCall = 1)) := by
  refine ⟨⟨?_, ?_⟩, ⟨?_, ?_⟩⟩
  · intro g req msgs e hm
    rcases ChatProxyHandler_cases wc c with ⟨err, h⟩ | ⟨key, err, h⟩ |
      ⟨key, cl, rq, m, err, -, -, -, hw, h⟩ | ⟨key, cl, rq, m, resp, -, -, -, hw, h⟩ |
      ⟨key, cl, rq, m, err, -, -, -, hw, h⟩ | ⟨key, cl, rq, m, ch, -, -, -, hw, h⟩
    · rw [h] at hm; simp [badRequest] at hm
    · rw [h] at hm; simp [badRequest] at hm
    · rw [h] at hm ⊢
      simp [badRequest] at hm
      obtain ⟨rfl, rfl, rfl, rfl⟩ := hm
      refine ⟨hw, rfl, ?_⟩
      simp [List.countP_cons, Event.isUpstreamCall, badRequest]
    · rw [h] at hm; simp at hm
    · rw [h] at hm; simp [badRequest] at hm
    · rw [h] at hm
      simp [setEventStreamHeaders] at hm
      rcases mem_streamTrace _ _ _ _ hm with ⟨d, hd⟩ | ⟨r, hr⟩
      · cases hd
      · cases hr
  · intro body hm
    rcases ChatProxyHandler_cases wc c with ⟨err, h⟩ | ⟨key, err, h⟩ |
      ⟨key, cl, rq, m, err, -, -, -, hw, h⟩ | ⟨key, cl, rq, m, resp, -, -, -, hw, h⟩ |
      ⟨key, cl, rq, m, err, -, -, -, hw, h⟩ | ⟨key, cl, rq, m, ch, -, -, -, hw, h⟩
    · rw [h] at hm; simp [responses, badRequest, StatusBadRequest] at hm
    · rw [h] at hm; simp [responses, badRequest, StatusBadRequest] at hm
    · rw [h] at hm; simp [responses, badRequest, StatusBadRequest] at hm
    · rw [h] at hm ⊢
      simp [responses, StatusOK] at hm
      subst hm
      refine ⟨_, rq, m, resp, hw, by simp, rfl, ?_⟩
      simp [List.countP_cons, Event.isUpstreamCall]
    · rw [h] at hm; simp [responses, badRequest, StatusBadRequest] at hm
    · exfalso
      rw [h] at hm
      have := responses_streamTrace c.clientGone 0 ch.payloads
      simp only [responses] at this
      simp [responses, setEventStreamHeaders, List.filterMap_append, this] at hm
  · intro g msgs e hm
    rcases EmbeddingProxyHandler_cases we c with ⟨err, h⟩ | ⟨key, err, h⟩ |
      ⟨key, cl, g1, m, err, hw, h⟩ | ⟨key, cl, g1, m, resp, hw, h⟩
    · rw [h] at hm; simp [badRequest] at hm
    · rw [h] at hm; simp [badRequest] at hm
    · rw [h] at hm ⊢
      simp [badRequest] at hm
      obtain ⟨rfl, rfl, rfl⟩ := hm
      refine ⟨hw, rfl, ?_⟩
      simp [List.countP_cons, Event.isUpstreamCall, badRequest]
    · rw [h] at hm; simp at hm
  · intro body hm
    rcases EmbeddingProxyHandler_cases we c with ⟨err, h⟩ | ⟨key, err, h⟩ |
      ⟨key, cl, g1, m, err, hw, h⟩ | ⟨key, cl, g1, m, resp, hw, h⟩
    · rw [h] at hm; simp [responses, badRequest, StatusBadRequest] at hm
    · rw [h] at hm; simp [responses, badRequest, StatusBadRequest] at hm
    · rw [h] at hm; simp [responses, badRequest, StatusBadRequest] at hm
    · rw [h] at hm ⊢
      simp [responses, StatusOK] at hm
      subst hm
      refine ⟨g1, m, resp, hw, by simp, rfl, ?_⟩
      simp [List.countP_cons, Event.isUpstreamCall]

/-- Witness of C4: a chat run and an embedding run whose upstream call fails
with `quota exceeded`. -/
theorem upstream_failure_not_swallowed_witness :
    (Event.GenerateContent (NewGeminiAdapter { handle := 1 } "gemini-pro")
        { Model := "gemini-pro", Stream := false, rest := "" } { contents := ["hi"] }
        (Result.error { Error := "quota exceeded" })
      ∈ ChatProxyHandler failingChatWorld sampleContext ∧
     responses (ChatProxyHandler failingChatWorld sampleContext)
       = [(400, Body.APIError { Code := 400, Message := "quota exceeded" })] ∧
     (ChatProxyHandler failingChatWorld sampleContext).countP Event.isUpstreamCall = 1) ∧
    (Event.GenerateEmbedding (NewGeminiAdapter { handle := 1 } "text-embedding-004")
        { contents := ["hi"] } (Result.error { Error := "quota exceeded" })
      ∈ EmbeddingProxyHandler failingEmbeddingWorld sampleContext ∧
     responses (EmbeddingProxyHandler failingEmbeddingWorld sampleContext)
       = [(400, Body.APIError { Code := 400, Message := "quota exceeded" })] ∧
     (EmbeddingProxyHandler failingEmbeddingWorld sampleContext).countP Event.isUpstreamCall = 1) :=
  ⟨⟨by decide,
    ((upstream_failure_not_swallowed failingChatWorld failingEmbeddingWorld sampleContext).1.1
      (NewGeminiAdapter { handle := 1 } "gemini-pro")
      { Model := "gemini-pro", Stream := false, rest := "" } { contents := ["hi"] }
      { Error := "quota exceeded" } (by decide)).2⟩,
   ⟨by decide,
    ((upstream_failure_not_swallowed failingChatWorld failingEmbeddingWorld sampleContext).2.1
      (NewGeminiAdapter { handle := 1 } "text-embedding-004") { contents := ["hi"] }
      { Error := "quota exceeded" } (by decide)).2⟩⟩

/-- C5: in every run of `ChatProxyHandler` and of `EmbeddingProxyHandler` the
upstream client is created at most once; if the creation succeeded, the client
is closed exactly once and the `Close` is the last event of the run, hence the
last event that involves the client; if no creation succeeded, the run contains
no `Close`. -/
theorem client_scoped_to_request (wc : ChatWorld) (we : EmbeddingWorld) (c : Context) :
    ((ChatProxyHandler wc c).countP Event.isNewClient ≤ 1 ∧
     (∀ key client, Event.NewClient key (Result.ok client) ∈ ChatProxyHandler wc c →
        (ChatProxyHandler wc c).countP Event.isClose = 1 ∧
        (ChatProxyHandler wc c).getLast? = some (Event.Close client) ∧
        ((ChatProxyHandler wc c).filter Event.isClientRelated).getLast?
          = some (Event.Close client)) ∧
     ((∀ key client, Event.NewClient key (Result.ok client) ∉ ChatProxyHandler wc c) →
        (ChatProxyHandler wc c).countP Event.isClose = 0)) ∧
    ((EmbeddingProxyHandler we c).countP Event.isNewClient ≤ 1 ∧
     (∀ key client, Event.NewClient key (Result.ok client) ∈ EmbeddingProxyHandler we c →
        (EmbeddingProxyHandler we c).countP Event.isClose = 1 ∧
        (EmbeddingProxyHandler we c).getLast? = some (Event.Close client) ∧
        ((EmbeddingProxyHandler we c).filter Event.isClientRelated).getLast?
          = some (Event.Close client)) ∧
     ((∀ key client, Event.NewClient key (Result.ok client) ∉ EmbeddingProxyHandler we c) →
        (EmbeddingProxyHandler we c).countP Event.isClose = 0)) := by
  constructor
  · rcases ChatProxyHandler_cases wc c with ⟨err, h⟩ | ⟨key, err, h⟩ |
      ⟨key, cl, rq, m, err, -, -, -, -, h⟩ | ⟨key, cl, rq, m, resp, -, -, -, -, h⟩ |
      ⟨key, cl, rq, m, err, -, -, -, -, h⟩ | ⟨key, cl, rq, m, ch, -, -, -, -, h⟩
    · rw [h]
      simp [badRequest, List.countP_cons, Event.isNewClient, Event.isClose]
    · rw [h]
      simp [badRequest, List.countP_cons, Event.isNewClient, Event.isClose]
    · rw [h]
      refine ⟨by simp [badRequest, List.countP_cons, Event.isNewClient], ?_, ?_⟩
      · intro k cl2 hm
        simp [badRequest] at hm
        obtain ⟨-, rfl⟩ := hm
        simp [badRequest, List.countP_cons, Event.isClose, List.filter_cons,
          Event.isClientRelated, Event.isNewClient, Event.isUpstreamCall]
      · intro hno
        exact absurd (List.mem_cons_self _ _) (hno key cl)
    · rw [h]
      refine ⟨by simp [List.countP_cons, Event.isNewClient], ?_, ?_⟩
      · intro k cl2 hm
        simp at hm
        obtain ⟨-, rfl⟩ := hm
        simp [List.countP_cons, Event.isClose, List.filter_cons,
          Event.isClientRelated, Event.isNewClient, Event.isUpstreamCall]
      · intro hno
        exact absurd (List.mem_cons_self _ _) (hno key cl)
    · rw [h]
      refine ⟨by simp [badRequest, List.countP_cons, Event.isNewClient], ?_, ?_⟩
      · intro k cl2 hm
        simp [badRequest] at hm
        obtain ⟨-, rfl⟩ := hm
        simp [badRequest, List.countP_cons, Event.isClose, List.filter_cons,
          Event.isClientRelated, Event.isNewClient, Event.isUpstreamCall]
      · intro hno
        exact absurd (List.mem_cons_self _ _) (hno key cl)
    · rw [h]
      have hN := countP_streamTrace Event.isNewClient (fun _ _ => rfl) (fun _ => rfl)
        c.clientGone 0 ch.payloads
      have hC := countP_streamTrace Event.isClose (fun _ _ => rfl) (fun _ => rfl)
        c.clientGone 0 ch.payloads
      have hF := filter_streamTrace Event.isClientRelated (fun _ _ => rfl) (fun _ => rfl)
        c.clientGone 0 ch.payloads
      refine ⟨?_, ?_, ?_⟩
      · simp [List.countP_cons, List.countP_append, Event.isNewClient, setEventStreamHeaders, hN]
      · intro k cl2 hm
        have hcl : cl2 = cl := by
          simp [setEventStreamHeaders] at hm
          rcases hm with ⟨-, hm⟩ | hm
          · exact hm
          · rcases mem_streamTrace _ _ _ _ hm with ⟨d, hd⟩ | ⟨r, hr⟩
            · cases hd
            · cases hr
        subst hcl
        refine ⟨?_, ?_, ?_⟩
        · simp [List.countP_cons, List.countP_append, Event.isClose, setEventStreamHeaders, hC]
        · have hcat : Event.NewClient key (Result.ok cl2) ::
              Event.GenerateStreamContent (NewGeminiAdapter cl2 rq.Model) rq m (Result.ok ch) ::
              (setEventStreamHeaders ++ streamTrace c.clientGone 0 ch.payloads ++ [Event.Close cl2])
              = (Event.NewClient key (Result.ok cl2) ::
              Event.GenerateStreamContent (NewGeminiAdapter cl2 rq.Model) rq m (Result.ok ch) ::
              (setEventStreamHeaders ++ streamTrace c.clientGone 0 ch.payloads))
                ++ [Event.Close cl2] := by simp
          rw [hcat, List.getLast?_concat]
        · simp [List.filter_cons, List.filter_append, hF, setEventStreamHeaders,
            Event.isClientRelated, Event.isNewClient, Event.isUpstreamCall, Event.isClose]
      · intro hno
        exact absurd (List.mem_cons_self _ _) (hno key cl)
  · rcases EmbeddingProxyHandler_cases we c with ⟨err, h⟩ | ⟨key, err, h⟩ |
      ⟨key, cl, g1, m, err, -, h⟩ | ⟨key, cl, g1, m, resp, -, h⟩
    · rw [h]
      simp [badRequest, List.countP_cons, Event.isNewClient, Event.isClose]
    · rw [h]
      simp [badRequest, List.countP_cons, Event.isNewClient, Event.isClose]
    · rw [h]
      refine ⟨by simp [badRequest, List.countP_cons, Event.isNewClient], ?_, ?_⟩
      · intro k cl2 hm
        simp [badRequest] at hm
        obtain ⟨-, rfl⟩ := hm
        simp [badRequest, List.countP_cons, Event.isClose, List.filter_cons,
          Event.isClientRelated, Event.isNewClient, Event.isUpstreamCall]
      · intro hno
        exact absurd (List.mem_cons_self _ _) (hno key cl)
    · rw [h]
      refine ⟨by simp [List.countP_cons, Event.isNewClient], ?_, ?_⟩
      · intro k cl2 hm
        simp at hm
        obtain ⟨-, rfl⟩ := hm
        simp [List.countP_cons, Event.isClose, List.filter_cons,
          Event.isClientRelated, Event.isNewClient, Event.isUpstreamCall]
      · intro hno
        exact absurd (List.mem_cons_self _ _) (hno key cl)

/-- Witness of C5: a streamed chat run and an embedding run that created their
client. -/
theorem client_scoped_to_request_witness :
    (Event.NewClient "k" (Result.ok { handle := 1 })
        ∈ ChatProxyHandler (streamWorld ["Hel", "lo"] false) sampleContext ∧
     (ChatProxyHandler (streamWorld ["Hel", "lo"] false) sampleContext).countP Event.isClose = 1 ∧
     (ChatProxyHandler (streamWorld ["Hel", "lo"] false) sampleContext).getLast?
       = some (Event.Close { handle := 1 })) ∧
    (Event.NewClient "k" (Result.ok { handle := 1 })
        ∈ EmbeddingProxyHandler failingEmbeddingWorld sampleContext ∧
     (EmbeddingProxyHandler failingEmbeddingWorld sampleContext).countP Event.isClose = 1 ∧
     (EmbeddingProxyHandler failingEmbeddingWorld sampleContext).getLast?
       = some (Event.Close { handle := 1 })) :=
  ⟨⟨by decide,
    ((client_scoped_to_request (streamWorld ["Hel", "lo"] false) failingEmbeddingWorld
        sampleContext).1.2.1 "k" { handle := 1 } (by decide)).1,
    ((client_scoped_to_request (streamWorld ["Hel", "lo"] false) failingEmbeddingWorld
        sampleContext).1.2.1 "k" { handle := 1 } (by decide)).2.1⟩,
   ⟨by decide,
    ((client_scoped_to_request (streamWorld ["Hel", "lo"] false) failingEmbeddingWorld
        sampleContext).2.2.1 "k" { handle := 1 } (by decide)).1,
    ((client_scoped_to_request (streamWorld ["Hel", "lo"] false) failingEmbeddingWorld
        sampleContext).2.2.1 "k" { handle := 1 } (by decide)).2.1⟩⟩

/-- C6: a run of `ChatProxyHandler` that created its upstream client makes
exactly one upstream call, chosen by the `Stream` flag of the bound request:
`GenerateContent` when it is false, `GenerateStreamContent` when it is true,
never both; the call receives the bound request and the messages returned by
`req.ToGenaiMessages()`. -/
theorem one_upstream_call_per_chat (w : ChatWorld) (c : Context) (key : String) (client : Client)
    (h : Event.NewClient key (Result.ok client) ∈ ChatProxyHandler w c) :
    ∃ req msgs, w.ShouldBindJSON c.body = Result.ok req ∧
      w.ToGenaiMessages req = Result.ok msgs ∧
      (ChatProxyHandler w c).filter Event.isUpstreamCall =
        [if req.Stream then
           Event.GenerateStreamContent (NewGeminiAdapter client req.Model) req msgs
             (w.GenerateStreamContent (NewGeminiAdapter client req.Model) req msgs)
         else
           Event.GenerateContent (NewGeminiAdapter client req.Model) req msgs
             (w.GenerateContent (NewGeminiAdapter client req.Model) req msgs)] := by
  rcases ChatProxyHandler_cases w c with ⟨err, ht⟩ | ⟨k, err, ht⟩ |
    ⟨k, cl, rq, m, err, hb, hm, hs, hw, ht⟩ | ⟨k, cl, rq, m, resp, hb, hm, hs, hw, ht⟩ |
    ⟨k, cl, rq, m, err, hb, hm, hs, hw, ht⟩ | ⟨k, cl, rq, m, ch, hb, hm, hs, hw, ht⟩
  · rw [ht] at h; simp [badRequest] at h
  · rw [ht] at h; simp [badRequest] at h
  · rw [ht] at h ⊢
    simp [badRequest] at h
    obtain ⟨-, rfl⟩ := h
    exact ⟨rq, m, hb, hm, by simp [hs, hw, List.filter_cons, Event.isUpstreamCall, badRequest]⟩
  · rw [ht] at h ⊢
    simp at h
    obtain ⟨-, rfl⟩ := h
    exact ⟨rq, m, hb, hm, by simp [hs, hw, List.filter_cons, Event.isUpstreamCall]⟩
  · rw [ht] at h ⊢
    simp [badRequest] at h
    obtain ⟨-, rfl⟩ := h
    exact ⟨rq, m, hb, hm, by simp [hs, hw, List.filter_cons, Event.isUpstreamCall, badRequest]⟩
  · rw [ht] at h ⊢
    have hcl : client = cl := by
      simp [setEventStreamHeaders] at h
      rcases h with ⟨-, h⟩ | h
      · exact h
      · rcases mem_streamTrace _ _ _ _ h with ⟨d, hd⟩ | ⟨r, hr⟩
        · cases hd
        · cases hr
    subst hcl
    have hF := filter_streamTrace Event.isUpstreamCall (fun _ _ => rfl) (fun _ => rfl)
      c.clientGone 0 ch.payloads
    exact ⟨rq, m, hb, hm, by
      simp [hs, hw, List.filter_cons, List.filter_append, hF, Event.isUpstreamCall,
        setEventStreamHeaders]⟩

/-- Witness of C6: a non-streamed chat run that created its client. -/
theorem one_upstream_call_per_chat_witness :
    Event.NewClient "k" (Result.ok { handle := 1 })
      ∈ ChatProxyHandler failingChatWorld sampleContext ∧
    ∃ req msgs, failingChatWorld.ShouldBindJSON sampleContext.body = Result.ok req ∧
      failingChatWorld.ToGenaiMessages req = Result.ok msgs ∧
      (ChatProxyHandler failingChatWorld sampleContext).filter Event.isUpstreamCall =
        [if req.Stream then
           Event.GenerateStreamContent (NewGeminiAdapter { handle := 1 } req.Model) req msgs
             (failingChatWorld.GenerateStreamContent
               (NewGeminiAdapter { handle := 1 } req.Model) req msgs)
         else
           Event.GenerateContent (NewGeminiAdapter { handle := 1 } req.Model) req msgs
             (failingChatWorld.GenerateContent
               (NewGeminiAdapter { handle := 1 } req.Model) req msgs)] :=
  ⟨by decide,
   one_upstream_call_per_chat failingChatWorld sampleContext "k" { handle := 1 } (by decide)⟩

/-- C9: `setEventStreamHeaders` sets `Content-Type` to `text/event-stream`,
`Cache-Control` to `no-cache`, `Connection` to `keep-alive`,
`Transfer-Encoding` to `chunked` and `X-Accel-Buffering` to `no`, and leaves
every other response header as it was.  A run of `ChatProxyHandler` writes
response headers if and only if the request is streamed and
`GenerateStreamContent` returned a channel; it then writes exactly these five,
after which it writes no header, and nothing is rendered before them; a run
that writes a response with `c.JSON` writes no header. -/
theorem event_stream_headers (h : Header) (w : ChatWorld) (c : Context) :
    (Header.Values (headerAfter h setEventStreamHeaders) "Content-Type"
        = some ["text/event-stream"] ∧
     Header.Values (headerAfter h setEventStreamHeaders) "Cache-Control" = some ["no-cache"] ∧
     Header.Values (headerAfter h setEventStreamHeaders) "Connection" = some ["keep-alive"] ∧
     Header.Values (headerAfter h setEventStreamHeaders) "Transfer-Encoding" = some ["chunked"] ∧
     Header.Values (headerAfter h setEventStreamHeaders) "X-Accel-Buffering" = some ["no"] ∧
     (∀ k, k ≠ "Content-Type" → k ≠ "Cache-Control" → k ≠ "Connection" →
        k ≠ "Transfer-Encoding" → k ≠ "X-Accel-Buffering" →
        Header.Values (headerAfter h setEventStreamHeaders) k = Header.Values h k)) ∧
    ((∃ e, e ∈ ChatProxyHandler w c ∧ e.isSetHeader = true) ↔
      ∃ g req msgs ch, req.Stream = true ∧
        Event.GenerateStreamContent g req msgs (Result.ok ch) ∈ ChatProxyHandler w c) ∧
    (∀ g req msgs ch,
      Event.GenerateStreamContent g req msgs (Result.ok ch) ∈ ChatProxyHandler w c →
      ∃ pre post, ChatProxyHandler w c = pre ++ setEventStreamHeaders ++ post ∧
        (∀ e, e ∈ pre → e.isRender = false ∧ e.isSetHeader = false) ∧
        (∀ e, e ∈ post → e.isSetHeader = false)) ∧
    (responses (ChatProxyHandler w c) ≠ [] →
      ∀ e, e ∈ ChatProxyHandler w c → e.isSetHeader = false) := by
  have hhead : headerAfter h setEventStreamHeaders =
      Header.Set (Header.Set (Header.Set (Header.Set (Header.Set h
        "Content-Type" "text/event-stream") "Cache-Control" "no-cache")
        "Connection" "keep-alive") "Transfer-Encoding" "chunked") "X-Accel-Buffering" "no" := by
    simp [headerAfter, setEventStreamHeaders, Event.applyHeader]
  refine ⟨?_, ?_⟩
  · rw [hhead]
    refine ⟨by simp [Values_Set], by simp [Values_Set], by simp [Values_Set],
      by simp [Values_Set], by simp [Values_Set], ?_⟩
    intro k h1 h2 h3 h4 h5
    simp [Values_Set, Ne.symm h1, Ne.symm h2, Ne.symm h3, Ne.symm h4, Ne.symm h5]
  · rcases ChatProxyHandler_cases w c with ⟨err, ht⟩ | ⟨k, err, ht⟩ |
      ⟨k, cl, rq, m, err, hb, hm, hs, hw, ht⟩ | ⟨k, cl, rq, m, resp, hb, hm, hs, hw, ht⟩ |
      ⟨k, cl, rq, m, err, hb, hm, hs, hw, ht⟩ | ⟨k, cl, rq, m, ch, hb, hm, hs, hw, ht⟩
    · rw [ht]
      simp [badRequest, Event.isSetHeader]
    · rw [ht]
      simp [badRequest, Event.isSetHeader]
    · rw [ht]
      simp [badRequest, Event.isSetHeader]
    · rw [ht]
      simp [Event.isSetHeader]
    · rw [ht]
      simp [badRequest, Event.isSetHeader]
    · rw [ht]
      have hnot : ∀ e, e ∈ streamTrace c.clientGone 0 ch.payloads → e.isSetHeader = false := by
        intro e he
        rcases mem_streamTrace _ _ _ _ he with ⟨d, rfl⟩ | ⟨r, rfl⟩ <;> rfl
      have hresp := responses_streamTrace c.clientGone 0 ch.payloads
      simp only [responses] at hresp
      refine ⟨?_, ?_, ?_⟩
      · constructor
        · intro _
          exact ⟨NewGeminiAdapter cl rq.Model, rq, m, ch, hs, by simp⟩
        · intro _
          exact ⟨Event.SetHeader "Content-Type" "text/event-stream",
            by simp [setEventStreamHeaders], rfl⟩
      · intro g req msgs ch2 _
        refine ⟨[Event.NewClient k (Result.ok cl),
          Event.GenerateStreamContent (NewGeminiAdapter cl rq.Model) rq m (Result.ok ch)],
          streamTrace c.clientGone 0 ch.payloads ++ [Event.Close cl], by simp, ?_, ?_⟩
        · intro e he
          simp at he
          rcases he with rfl | rfl <;> exact ⟨rfl, rfl⟩
        · intro e he
          simp at he
          rcases he with he | rfl
          · exact hnot e he
          · rfl
      · intro hne
        exfalso
        apply hne
        simp [responses, setEventStreamHeaders, List.filterMap_append, hresp]

/-- Witness of C9: a streamed chat run writes the five headers after the
stream has started and before anything is rendered. -/
theorem event_stream_headers_witness :
    Event.GenerateStreamContent (NewGeminiAdapter { handle := 1 } "gemini-pro")
        { Model := "gemini-pro", Stream := true, rest := "" } { contents := ["hi"] }
        (Result.ok { payloads := ["Hel"], endedByError := false })
      ∈ ChatProxyHandler (streamWorld ["Hel"] false) sampleContext ∧
    ∃ pre post, ChatProxyHandler (streamWorld ["Hel"] false) sampleContext
        = pre ++ setEventStreamHeaders ++ post ∧
      (∀ e, e ∈ pre → e.isRender = false ∧ e.isSetHeader = false) ∧
      (∀ e, e ∈ post → e.isSetHeader = false) :=
  ⟨by decide,
   (event_stream_headers [] (streamWorld ["Hel"] false) sampleContext).2.2.1
     (NewGeminiAdapter { handle := 1 } "gemini-pro")
     { Model := "gemini-pro", Stream := true, rest := "" } { contents := ["hi"] }
     { payloads := ["Hel"], endedByError := false } (by decide)⟩

end api
